import Mathlib

/-!
Shallow embedding of `server.py` from the fastmcp-perso repository: a FastMCP
tool server exposing `greet` and `estimate_real_estate_investment`, plus the
`get_auth_headers` helper.  Python floats are modelled as rationals (the code
performs no arithmetic on them, only passes them through), Python ints as
`Int`, environment lookup as a function `String → Option String`, and the
outbound HTTP POST as a function from (url, payload, headers) to an abstract
outcome.

Line 1 of server.py imports only `FastMCP`: the names `os` (line 16),
`base64` (line 24), `httpx` (lines 142 and 152) and `Optional` (lines 63-64)
are never bound in the module namespace.  Global-name resolution is therefore
embedded explicitly: evaluating an unbound global raises `NameError`, and a
raised exception is the `Except.error` case of a function's result.  The
`Optional` annotations are metadata and are not evaluated when the function
is called (lazy annotation semantics), so they do not affect a call.  The
`except httpx.HTTPError` clause on line 152 is modelled as Python executes
it: when an exception escapes the try block, the clause expression
`httpx.HTTPError` is evaluated first, and with `httpx` unbound that
evaluation raises a fresh `NameError` which propagates, skipping the
following `except Exception` clause.
-/

namespace Server

/-- JSON values, as produced by parsing a response body and as returned by the
tool call. Objects are insertion-ordered key/value lists, as Python dicts are. -/
inductive Json where
  | null
  | bool (b : Bool)
  | int (n : Int)
  | num (q : ℚ)
  | str (s : String)
  | arr (elems : List Json)
  | obj (fields : List (String × Json))

/-- Values appearing in the outbound payload dict of
`estimate_real_estate_investment`: Python floats, ints, and `None`. -/
inductive PyVal where
  | float (q : ℚ)
  | int (n : Int)
  | none
deriving DecidableEq, Repr

/-- `True` exactly on Python's `None` value. -/
def PyVal.isNone : PyVal → Bool
  | PyVal.none => true
  | _ => false

/-- The parameters of `estimate_real_estate_investment` with the default
values of the source (server.py lines 33-67). -/
structure EstimateParams where
  purchase_price : ℚ := 50000.0
  notary_rate : ℚ := 0.08
  renovation : ℚ := 10000.0
  furniture : ℚ := 0.0
  agency_fees : ℚ := 0.0
  rent : ℚ := 500.0
  vacancy_months : ℚ := 0.5
  management_pct : ℚ := 0.0
  copro_charges : ℚ := 10.0
  ll_insurance : ℚ := 10.0
  property_tax : ℚ := 500.0
  other_annual : ℚ := 0.0
  building_years : Int := 30
  furniture_years : Int := 7
  land_share : ℚ := 0.15
  loan_years : Int := 20
  loan_rate : ℚ := 0.035
  loan_insurance_rate : ℚ := 0.002
  down_payment : ℚ := 5000.0
  target_monthly_cf : ℚ := 0.0
  resale_years : Option Int := Option.none
  resale_price : Option ℚ := Option.none
  api_base_url : String := "https://estimation-immo.ams-investissements.fr"

/-- A call with every parameter left at its default. -/
def defaultParams : EstimateParams := {}

/-- A Python `Optional[int]` as a payload value: `None` stays `None`. -/
def optInt : Option Int → PyVal
  | Option.none => PyVal.none
  | Option.some n => PyVal.int n

/-- A Python `Optional[float]` as a payload value: `None` stays `None`. -/
def optFloat : Option ℚ → PyVal
  | Option.none => PyVal.none
  | Option.some q => PyVal.float q

/-- The payload dict literal of server.py lines 109-132, before `None`
stripping: the snake_case parameters mapped to their camelCase wire names.
The dict uses only the call's parameters, so its assembly cannot fail. -/
def rawPayload (p : EstimateParams) : List (String × PyVal) :=
  [("purchasePrice", PyVal.float p.purchase_price),
   ("notaryRate", PyVal.float p.notary_rate),
   ("renovation", PyVal.float p.renovation),
   ("furniture", PyVal.float p.furniture),
   ("agencyFees", PyVal.float p.agency_fees),
   ("rent", PyVal.float p.rent),
   ("vacancyMonths", PyVal.float p.vacancy_months),
   ("managementPct", PyVal.float p.management_pct),
   ("coproCharges", PyVal.float p.copro_charges),
   ("llInsurance", PyVal.float p.ll_insurance),
   ("propertyTax", PyVal.float p.property_tax),
   ("otherAnnual", PyVal.float p.other_annual),
   ("buildingYears", PyVal.int p.building_years),
   ("furnitureYears", PyVal.int p.furniture_years),
   ("landShare", PyVal.float p.land_share),
   ("loanYears", PyVal.int p.loan_years),
   ("loanRate", PyVal.float p.loan_rate),
   ("loanInsuranceRate", PyVal.float p.loan_insurance_rate),
   ("downPayment", PyVal.float p.down_payment),
   ("targetMonthlyCf", PyVal.float p.target_monthly_cf),
   ("resaleYears", optInt p.resale_years),
   ("resalePrice", optFloat p.resale_price)]

/-- Line 135: `payload = {k: v for k, v in payload.items() if v is not None}`. -/
def payloadOf (p : EstimateParams) : List (String × PyVal) :=
  (rawPayload p).filter (fun kv => !(PyVal.isNone kv.2))

/-- The keys of a payload dict, in insertion order. -/
def keys (l : List (String × PyVal)) : List String := l.map Prod.fst

/-- Python truthiness test `not x` on an `Optional[str]`: true for `None` and
for the empty string. -/
def falsyStr : Option String → Bool
  | Option.none => true
  | Option.some s => s == ""

/-- The standard base64 alphabet. -/
def base64Alphabet : List Char :=
  ['A', 'B', 'C', 'D', 'E', 'F', 'G', 'H', 'I', 'J', 'K', 'L', 'M',
   'N', 'O', 'P', 'Q', 'R', 'S', 'T', 'U', 'V', 'W', 'X', 'Y', 'Z',
   'a', 'b', 'c', 'd', 'e', 'f', 'g', 'h', 'i', 'j', 'k', 'l', 'm',
   'n', 'o', 'p', 'q', 'r', 's', 't', 'u', 'v', 'w', 'x', 'y', 'z',
   '0', '1', '2', '3', '4', '5', '6', '7', '8', '9', '+', '/']

/-- The base64 digit for a 6-bit group. -/
def b64Char (n : Nat) : Char := base64Alphabet.getD n '='

/-- Base64 encoding of a byte list, three bytes to four digits, with `=`
padding, as `base64.b64encode` produces. -/
def b64Encode : List Nat → List Char
  | [] => []
  | [b1] =>
      [b64Char (b1 / 4), b64Char (b1 % 4 * 16), '=', '=']
  | [b1, b2] =>
      [b64Char (b1 / 4), b64Char (b1 % 4 * 16 + b2 / 16), b64Char (b2 % 16 * 4), '=']
  | b1 :: b2 :: b3 :: rest =>
      b64Char (b1 / 4) :: b64Char (b1 % 4 * 16 + b2 / 16) ::
      b64Char (b2 % 16 * 4 + b3 / 64) :: b64Char (b3 % 64) :: b64Encode rest

/-- UTF-8 encoding of a single character, as `str.encode()` uses. -/
def utf8Bytes (c : Char) : List Nat :=
  let n := c.toNat
  if n < 128 then [n]
  else if n < 2048 then [192 + n / 64, 128 + n % 64]
  else if n < 65536 then [224 + n / 4096, 128 + n / 64 % 64, 128 + n % 64]
  else [240 + n / 262144, 128 + n / 4096 % 64, 128 + n / 64 % 64, 128 + n % 64]

/-- The UTF-8 bytes of a string, as `str.encode()` returns. -/
def strBytes (s : String) : List Nat :=
  (s.toList.map utf8Bytes).flatten

/-- `base64.b64encode(s.encode()).decode()`. -/
def base64Encode (s : String) : String :=
  String.mk (b64Encode (strBytes s))

/-- The global names bound in the module namespace of server.py when its
functions run: line 1 binds `FastMCP`, and the module body binds `mcp` and
the three functions.  `os`, `base64`, `httpx` and `Optional` are never
imported. -/
def moduleNames : List String :=
  ["FastMCP", "mcp", "greet", "get_auth_headers", "estimate_real_estate_investment"]

/-- Whether a global name is bound in the module namespace. -/
def definedName (n : String) : Bool := moduleNames.contains n

/-- A Python `NameError`, carrying the unbound name. -/
inductive PyErr where
  | nameError (n : String)
deriving DecidableEq, Repr

/-- Evaluating a global name: a `NameError` when it is unbound. -/
def evalName (n : String) : Except PyErr Unit :=
  if definedName n then Except.ok () else Except.error (PyErr.nameError n)

/-- The message of a `NameError` (Python quotes the name; the quotes are
omitted here). -/
def nameErrorMsg (n : String) : String := "name " ++ n ++ " is not defined"

/-- `get_auth_headers` (server.py lines 11-28), with global-name resolution
made explicit: lines 16 and 17 evaluate the global `os` before calling its
`getenv`, and line 24 evaluates the global `base64` before encoding, so an
unbound name raises `NameError` out of the function.  A raised exception is
the `Except.error` case. -/
def get_auth_headers (env : String → Option String) :
    Except PyErr (List (String × String)) := do
  _ ← evalName "os"
  let username := env "API_USERNAME"
  _ ← evalName "os"
  let password := env "API_PASSWORD"
  if falsyStr username || falsyStr password then
    return []
  else
    let credentials := username.getD "" ++ ":" ++ password.getD ""
    _ ← evalName "base64"
    return [("Authorization", "Basic " ++ base64Encode credentials)]

/-- Python `dict.update`: keys present in `d` are overwritten in place, new
keys are appended in order. -/
def dictUpdate (d upd : List (String × String)) : List (String × String) :=
  upd.foldl
    (fun acc kv =>
      if acc.any (fun kv2 => kv2.1 == kv.1) then
        acc.map (fun kv2 => if kv2.1 == kv.1 then kv else kv2)
      else
        acc ++ [kv])
    d

/-- Line 144: the request target `f"{api_base_url}/api/estimate"`. -/
def requestUrl (p : EstimateParams) : String :=
  p.api_base_url ++ "/api/estimate"

/-- An HTTP response as the model sees it: its status code, the message the
client library would attach to the `HTTPStatusError` that
`raise_for_status()` raises on a non-2xx status, and the result of
`response.json()` (a parsed value, or the decode-error message). -/
structure HttpResponse where
  status_code : Nat
  statusMessage : String
  body : Except String Json

/-- What the POST of lines 143-148 could do if it were reached: deliver a
response, raise a transport-level `httpx.HTTPError` carrying no response
(connection failure, timeout), or raise some non-httpx exception. -/
inductive NetOutcome where
  | response (r : HttpResponse)
  | transportError (msg : String)
  | otherFailure (msg : String)

/-- The network, abstracted: the outcome of POSTing a payload with headers to
a URL. -/
abbrev Net := String → List (String × PyVal) → List (String × String) → NetOutcome

/-- `response.is_success`, the condition under which `raise_for_status()`
does not raise: a 2xx status. -/
def is2xx (status : Nat) : Bool := 200 ≤ status && status ≤ 299

/-- The exceptions that can escape the try block of the estimator, as the
handlers of lines 152-160 would classify them: a `NameError` from an unbound
global, an `httpx.HTTPError` (with the status code of its attached response
when it has one), or any other `Exception`. -/
inductive PyExc where
  | nameError (n : String)
  | httpError (msg : String) (status : Option Nat)
  | otherError (msg : String)
deriving DecidableEq, Repr

/-- A `NameError` escaping a callee or a name evaluation, seen inside the
try block. -/
def liftErr {α : Type} : Except PyErr α → Except PyExc α
  | Except.ok a => Except.ok a
  | Except.error (PyErr.nameError n) => Except.error (PyExc.nameError n)

/-- The try block of server.py lines 137-150, with global-name resolution
made explicit.  Line 139 builds the Content-Type header dict; line 140 calls
`get_auth_headers()` (whose `NameError` escapes into the try block); line
142 evaluates the global `httpx`; lines 143-150 would then issue the POST,
call `raise_for_status()`, and parse the body. -/
def tryBlock (p : EstimateParams) (env : String → Option String) (net : Net) :
    Except PyExc Json := do
  let ctHeaders := [("Content-Type", "application/json")]
  let auth ← liftErr (get_auth_headers env)
  let headers := dictUpdate ctHeaders auth
  _ ← liftErr (evalName "httpx")
  match net (requestUrl p) (payloadOf p) headers with
  | NetOutcome.transportError msg => Except.error (PyExc.httpError msg Option.none)
  | NetOutcome.otherFailure msg => Except.error (PyExc.otherError msg)
  | NetOutcome.response r =>
      if is2xx r.status_code then
        match r.body with
        | Except.ok j => Except.ok j
        | Except.error msg => Except.error (PyExc.otherError msg)
      else
        Except.error (PyExc.httpError r.statusMessage (Option.some r.status_code))

/-- The except clauses of server.py lines 152-160.  When an exception
escapes the try block, Python first evaluates the clause expression
`httpx.HTTPError`; with `httpx` unbound that evaluation raises a fresh
`NameError` which propagates, and the `except Exception` clause is never
considered.  Were `httpx` bound, an `httpError` would be converted into the
two-key error dict (the attached status code, else null) and every other
exception into the one-key dict. -/
def handleExc (e : PyExc) : Except PyExc Json :=
  match evalName "httpx" with
  | Except.error (PyErr.nameError n) => Except.error (PyExc.nameError n)
  | Except.ok _ =>
      match e with
      | PyExc.httpError msg st =>
          Except.ok (Json.obj
            [("error", Json.str ("HTTP error occurred: " ++ msg)),
             ("status_code", match st with
                             | Option.some c => Json.int c
                             | Option.none => Json.null)])
      | PyExc.nameError n =>
          Except.ok (Json.obj
            [("error", Json.str ("An error occurred: " ++ nameErrorMsg n))])
      | PyExc.otherError msg =>
          Except.ok (Json.obj
            [("error", Json.str ("An error occurred: " ++ msg))])

/-- `estimate_real_estate_investment` (server.py lines 31-160): the try
block with the two handlers around it.  `Except.ok` is the value the call
returns; `Except.error e` is the exception `e` propagating uncaught to the
caller. -/
def estimate_real_estate_investment (p : EstimateParams)
    (env : String → Option String) (net : Net) : Except PyExc Json :=
  match tryBlock p env net with
  | Except.ok j => Except.ok j
  | Except.error e => handleExc e

/-- `greet` (server.py lines 5-7): `f"Hello, {name}!"`.  Its body uses no
global name, so it cannot raise. -/
def greet (name : String) : String :=
  "Hello, " ++ name ++ "!"

/-- A call with both resale parameters provided. -/
def bothResale : EstimateParams :=
  { resale_years := Option.some 10, resale_price := Option.some 80000.0 }

/-- A call providing only `resale_years`. -/
def onlyYears : EstimateParams := { resale_years := Option.some 10 }

/-- A call providing only `resale_price`. -/
def onlyPrice : EstimateParams := { resale_price := Option.some 80000.0 }

/-- An environment with no variables set. -/
def emptyEnv : String → Option String := fun _ => Option.none

/-- An environment with `API_USERNAME=alice` and `API_PASSWORD=secret`. -/
def aliceEnv : String → Option String
  | "API_USERNAME" => Option.some "alice"
  | "API_PASSWORD" => Option.some "secret"
  | _ => Option.none

/-- A remote answering HTTP 500 with a non-JSON body. -/
def resp500 : HttpResponse :=
  { status_code := 500,
    statusMessage := "Server error 500 Internal Server Error",
    body := Except.error "invalid json" }

/-- The network outcome of a remote answering HTTP 500. -/
def net500 : Net := fun _ _ _ => NetOutcome.response resp500

/-- The body of the documented successful response. -/
def okBody : Json := Json.obj [("tri", Json.num 0.07), ("noi", Json.int 4200)]

/-- A remote answering HTTP 200 with that JSON body. -/
def resp200 : HttpResponse :=
  { status_code := 200, statusMessage := "", body := Except.ok okBody }

/-- The network outcome of a remote answering HTTP 200. -/
def net200 : Net := fun _ _ _ => NetOutcome.response resp200

/-- C8: `greet` is total and returns exactly `"Hello, " ++ name ++ "!"`;
in particular `greet "World" = "Hello, World!"` and `greet "" = "Hello, !"`. -/
theorem greet_formats_exactly :
    (∀ name, greet name = "Hello, " ++ name ++ "!")
  ∧ greet "World" = "Hello, World!"
  ∧ greet "" = "Hello, !" :=
  ⟨fun _ => rfl, rfl, rfl⟩

/-- Counterexample for C3: a default-only call assembles a payload of 20
entries, not 21 — the two optional resale fields are stripped and only 20
always-present wire fields remain. -/
theorem default_payload_count_not_21 :
    (payloadOf defaultParams).length = 20 ∧ (payloadOf defaultParams).length ≠ 21 := by
  constructor <;> decide

/-- C3 (amended): a default-only call assembles exactly the 20 always-present
wire fields, each bound to its documented default, and no other keys. -/
theorem default_payload_exactly_20_defaults :
    payloadOf defaultParams =
      [("purchasePrice", PyVal.float 50000.0),
       ("notaryRate", PyVal.float 0.08),
       ("renovation", PyVal.float 10000.0),
       ("furniture", PyVal.float 0.0),
       ("agencyFees", PyVal.float 0.0),
       ("rent", PyVal.float 500.0),
       ("vacancyMonths", PyVal.float 0.5),
       ("managementPct", PyVal.float 0.0),
       ("coproCharges", PyVal.float 10.0),
       ("llInsurance", PyVal.float 10.0),
       ("propertyTax", PyVal.float 500.0),
       ("otherAnnual", PyVal.float 0.0),
       ("buildingYears", PyVal.int 30),
       ("furnitureYears", PyVal.int 7),
       ("landShare", PyVal.float 0.15),
       ("loanYears", PyVal.int 20),
       ("loanRate", PyVal.float 0.035),
       ("loanInsuranceRate", PyVal.float 0.002),
       ("downPayment", PyVal.float 5000.0),
       ("targetMonthlyCf", PyVal.float 0.0)] := rfl

/-- C4: an optional field left unset never appears as a key of the payload,
and when both resale parameters are provided both wire keys appear with
exactly the given values. -/
theorem unset_optionals_stripped (p : EstimateParams) :
    (p.resale_years = Option.none → "resaleYears" ∉ keys (payloadOf p))
  ∧ (p.resale_price = Option.none → "resalePrice" ∉ keys (payloadOf p))
  ∧ (∀ y pr, p.resale_years = Option.some y → p.resale_price = Option.some pr →
        ("resaleYears", PyVal.int y) ∈ payloadOf p
      ∧ ("resalePrice", PyVal.float pr) ∈ payloadOf p) := by
  refine ⟨?_, ?_, ?_⟩
  · intro h
    cases hp : p.resale_price <;>
      simp [payloadOf, rawPayload, keys, optInt, optFloat, PyVal.isNone, h, hp]
  · intro h
    cases hy : p.resale_years <;>
      simp [payloadOf, rawPayload, keys, optInt, optFloat, PyVal.isNone, h, hy]
  · intro y pr hy hp
    simp [payloadOf, rawPayload, optInt, optFloat, PyVal.isNone, hy, hp]

/-- Witness for C4: with both resale parameters omitted neither wire key is
present; with `resale_years=10`, `resale_price=80000.0` both keys carry
exactly those values. -/
theorem unset_optionals_stripped_witness :
    "resaleYears" ∉ keys (payloadOf defaultParams)
  ∧ "resalePrice" ∉ keys (payloadOf defaultParams)
  ∧ ("resaleYears", PyVal.int 10) ∈ payloadOf bothResale
  ∧ ("resalePrice", PyVal.float 80000.0) ∈ payloadOf bothResale :=
  ⟨(unset_optionals_stripped defaultParams).1 rfl,
   (unset_optionals_stripped defaultParams).2.1 rfl,
   ((unset_optionals_stripped bothResale).2.2 10 80000.0 rfl rfl).1,
   ((unset_optionals_stripped bothResale).2.2 10 80000.0 rfl rfl).2⟩

/-- C9: the two optional resale fields are stripped independently: providing
exactly one of them puts exactly that one wire key in the payload. -/
theorem optionals_stripped_independently (p : EstimateParams) :
    (∀ y, p.resale_years = Option.some y → p.resale_price = Option.none →
        ("resaleYears", PyVal.int y) ∈ payloadOf p
      ∧ "resalePrice" ∉ keys (payloadOf p))
  ∧ (∀ pr, p.resale_price = Option.some pr → p.resale_years = Option.none →
        ("resalePrice", PyVal.float pr) ∈ payloadOf p
      ∧ "resaleYears" ∉ keys (payloadOf p)) := by
  constructor
  · intro y hy hp
    simp [payloadOf, rawPayload, keys, optInt, optFloat, PyVal.isNone, hy, hp]
  · intro pr hp hy
    simp [payloadOf, rawPayload, keys, optInt, optFloat, PyVal.isNone, hy, hp]

/-- Witness for C9: providing only `resale_years=10` keeps `resaleYears` and
drops `resalePrice`; providing only `resale_price=80000.0` does the reverse. -/
theorem optionals_stripped_independently_witness :
    (("resaleYears", PyVal.int 10) ∈ payloadOf onlyYears
      ∧ "resalePrice" ∉ keys (payloadOf onlyYears))
  ∧ (("resalePrice", PyVal.float 80000.0) ∈ payloadOf onlyPrice
      ∧ "resaleYears" ∉ keys (payloadOf onlyPrice)) :=
  ⟨(optionals_stripped_independently onlyYears).1 10 rfl rfl,
   (optionals_stripped_independently onlyPrice).2 80000.0 rfl rfl⟩

/-- C5 (code bug): server.py line 1 imports only FastMCP, so the global `os`
on line 16 is unbound and every call of `get_auth_headers` raises
`NameError` before reading any credential — also with both credentials set
to alice/secret.  The builder never returns the empty header set nor the
Basic header without raising.  The encoded value the spec documents is
nonetheless the correct base64 of `alice:secret`, so the slip is the missing
import, not the intended encoding. -/
theorem get_auth_headers_raises_nameerror :
    (∀ env, get_auth_headers env = Except.error (PyErr.nameError "os"))
  ∧ get_auth_headers aliceEnv = Except.error (PyErr.nameError "os")
  ∧ base64Encode "alice:secret" = "YWxpY2U6c2VjcmV0" :=
  ⟨fun _ => rfl, rfl, rfl⟩

/-- C1 (code bug): with `httpx` never imported, the `NameError` raised at
line 140 reaches the handlers, evaluating `except httpx.HTTPError` raises a
fresh `NameError`, and `except Exception` is skipped: every invocation of
the tool call propagates an exception to the caller and no dictionary is
ever returned. -/
theorem estimate_propagates_nameerror (p : EstimateParams)
    (env : String → Option String) (net : Net) :
    estimate_real_estate_investment p env net =
      Except.error (PyExc.nameError "httpx") := rfl

/-- C2 (code bug): a remote answering HTTP 500 never receives a request —
the call fails with a propagated `NameError` at header construction, before
line 142, whatever the network would answer — so no
`{error: "HTTP error occurred: ...", status_code: 500}` dict is produced. -/
theorem http_500_not_converted :
    estimate_real_estate_investment defaultParams emptyEnv net500 =
      Except.error (PyExc.nameError "httpx")
  ∧ (∀ net, estimate_real_estate_investment defaultParams emptyEnv net =
        estimate_real_estate_investment defaultParams emptyEnv net500) :=
  ⟨rfl, fun _ => rfl⟩

/-- C6 (code bug): a remote answering HTTP 200 with the documented JSON body
never has that body returned: the call raises before the POST of line 142,
so no successful value is ever produced. -/
theorem success_body_never_returned :
    estimate_real_estate_investment defaultParams emptyEnv net200 =
      Except.error (PyExc.nameError "httpx")
  ∧ (∀ j, Except.ok j ≠ estimate_real_estate_investment defaultParams emptyEnv net200) :=
  ⟨rfl, fun _ h => nomatch h⟩

/-- C7 (code bug): the `NameError` of line 140 — a programming-error failure
squarely in the scope of the claim — is not converted into the
`{error: "An error occurred: ..."}` dict: evaluating the first handler
clause raises a fresh `NameError` that bypasses `except Exception` and
propagates, so the call never returns the generic error object. -/
theorem nameerror_not_converted (p : EstimateParams)
    (env : String → Option String) (net : Net) :
    estimate_real_estate_investment p env net ≠
      Except.ok (Json.obj
        [("error", Json.str ("An error occurred: " ++ nameErrorMsg "os"))])
  ∧ estimate_real_estate_investment p env net =
      Except.error (PyExc.nameError "httpx") :=
  ⟨(fun h => nomatch h), rfl⟩

/-- C10 (code bug): the `api_base_url` parameter never reaches the outbound
payload — the assembled payload is identical whatever its value — but it
also never determines any request target: the call fails with a propagated
`NameError` before line 142 for every value of `api_base_url` and every
network, so no request with target `api_base_url ++ "/api/estimate"` is
ever issued. -/
theorem api_base_url_never_used (p : EstimateParams)
    (env : String → Option String) :
    (∀ u, payloadOf { p with api_base_url := u } = payloadOf p)
  ∧ (∀ u net, estimate_real_estate_investment { p with api_base_url := u } env net =
        Except.error (PyExc.nameError "httpx")) :=
  ⟨fun _ => rfl, fun _ _ => rfl⟩

end Server
